import Mathlib

/-!
Shallow embedding of the CORTEX node firmware (Arduino sketch plus config.h)
and of the wire-record layout stated by the accompanying protocol document.

Modelling conventions:
* IEEE-754 single-precision float fields are modelled as `Option ℝ`;
  `none` stands for the NaN "sensor unavailable" sentinel and `some x`
  for a finite value.  The perfect-square magnitudes checked below are
  exact in IEEE single precision, so the real-number model is faithful
  for them.
* Machine integers are `Nat` with explicit reduction: `% 65536` for the
  `uint16_t` sequence counter, `% 2^32` for `unsigned long` / `uint32_t`
  millisecond timestamps.
* Vendor-library calls are modelled as narrow capability inputs: the
  sensor drivers (HTS, BARO, APDS, IMU) become a per-tick `SensorEnv`
  record of what the hardware would report, and the math-library `sqrt`
  becomes an explicit function argument, instantiated with `Real.sqrt`
  in the theorems.
* The global `CortexPacket packet;` has static storage duration in C++,
  hence is zero-initialized before `setup` runs.
-/

namespace Cortex

/-- A single-precision float field: `none` is the NaN sentinel, `some x` a value. -/
abbrev FloatVal := Option ℝ

/-- The NaN "unavailable" sentinel written by the firmware. -/
def NAN : FloatVal := none

/-- Value of `NODE_ID` in config.h. -/
def NODE_ID : Nat := 1

/-- The byte values of the ASCII magic constant "CTX1". -/
def magicCTX1 : List Nat := [67, 84, 88, 49]

/-- Modulus of `unsigned long` / `uint32_t` arithmetic, `2^32`. -/
def UINT32_MOD : Nat := 4294967296

/-- Modulus of the `uint16_t` sequence counter, `2^16`. -/
def UINT16_MOD : Nat := 65536

/-- Unsigned 32-bit subtraction `a - b`, as computed by
`currentTime - lastSampleTime` on `unsigned long` operands. -/
def usub32 (a b : Nat) : Nat := (a % UINT32_MOD + (UINT32_MOD - b % UINT32_MOD)) % UINT32_MOD

/-- The in-memory `CortexPacket` struct: header fields as naturals
(already reduced to their machine width) and the six sensor fields as
float values. -/
structure CortexPacket where
  magic : List Nat
  node_id : Nat
  reserved : Nat
  seq : Nat
  t_ms : Nat
  temp_c : FloatVal
  rh_pct : FloatVal
  pressure_hpa : FloatVal
  lux : FloatVal
  accel_g : FloatVal
  sound_dbfs : FloatVal

/-- The byte widths of the eleven fields of the packed `CortexPacket`
struct, in declaration order: `char magic[4]`, `uint8_t node_id`,
`uint8_t reserved`, `uint16_t seq`, `uint32_t t_ms`, six `float`s.
The struct carries `__attribute__((packed))`, so `sizeof` is their sum. -/
def cortexPacketFieldSizes : List Nat := [4, 1, 1, 2, 4, 4, 4, 4, 4, 4, 4]

/-- Value of `sizeof(CortexPacket)` for the packed struct: the byte count that
`cortexCharacteristic.writeValue(&packet, sizeof(packet))` hands to the
transport on every characteristic write. -/
def sizeofCortexPacket : Nat := cortexPacketFieldSizes.sum

/-- The (offset, size) rows of the WireRecord layout table in the spec
and protocol document, including the final 8-byte zero-filled padding
row at offset 36.  This definition follows the document, not the code,
for comparison against `cortexPacketFieldSizes`. -/
def specWireRecordRows : List (Nat × Nat) :=
  [(0, 4), (4, 1), (5, 1), (6, 2), (8, 4), (12, 4), (16, 4), (20, 4),
   (24, 4), (28, 4), (32, 4), (36, 8)]

/-- The record length demanded by the spec and protocol document. -/
def specWireRecordSize : Nat := 44

/-- The global `CortexPacket packet;` as it exists before `setup` runs:
static storage duration in C++ means every byte is zero, so the header
naturals are 0, `magic` holds four zero bytes, and each float field is
`+0.0` (a finite value, not NaN). -/
def zeroPacket : CortexPacket :=
  { magic := [0, 0, 0, 0]
    node_id := 0
    reserved := 0
    seq := 0
    t_ms := 0
    temp_c := some 0
    rh_pct := some 0
    pressure_hpa := some 0
    lux := some 0
    accel_g := some 0
    sound_dbfs := some 0 }

/-- The packet after the initialization statements in `setup`:
`memcpy(packet.magic, "CTX1", 4); packet.node_id = NODE_ID;
packet.reserved = 0; packet.seq = 0;`.  `setup` touches no other field,
so the float fields keep their zero-initialized values. -/
def setupPacket : CortexPacket :=
  { zeroPacket with
    magic := magicCTX1
    node_id := NODE_ID
    reserved := 0
    seq := 0 }

/-- The four sensor availability flags, recorded once by `setupSensors`
and never written afterward. -/
structure SensorFlags where
  hts_ok : Bool
  baro_ok : Bool
  apds_ok : Bool
  lsm_ok : Bool

/-- What the sensor hardware would report on one sampling tick: the
driver return values consumed by `readSensors`.  `colorAmbient` is the
`int a` ambient channel of `APDS.readColor`; the acceleration
components are in g. -/
structure SensorEnv where
  htsTemperature : ℝ
  htsHumidity : ℝ
  baroPressure : ℝ
  colorAvailable : Bool
  colorAmbient : ℤ
  accelerationAvailable : Bool
  ax : ℝ
  ay : ℝ
  az : ℝ

/-- Translation of `readSensors`, statement by statement.  `sqrtFn` is the
math-library `sqrt` passed as a capability; theorems instantiate it
with `Real.sqrt`.  Each branch matches the source:
temp/humidity from `hts_ok`, pressure from `baro_ok`, lux from
`apds_ok && APDS.colorAvailable()` (ambient channel cast to float),
acceleration magnitude from `lsm_ok && IMU.accelerationAvailable()`,
and `sound_dbfs` set to NaN unconditionally. -/
def readSensors (sqrtFn : ℝ → ℝ) (flags : SensorFlags) (env : SensorEnv)
    (p : CortexPacket) : CortexPacket :=
  { p with
    temp_c := if flags.hts_ok then some env.htsTemperature else NAN
    rh_pct := if flags.hts_ok then some env.htsHumidity else NAN
    pressure_hpa := if flags.baro_ok then some env.baroPressure else NAN
    lux := if flags.apds_ok && env.colorAvailable then some ((env.colorAmbient : ℝ)) else NAN
    accel_g :=
      if flags.lsm_ok && env.accelerationAvailable then
        some (sqrtFn (env.ax * env.ax + env.ay * env.ay + env.az * env.az))
      else NAN
    sound_dbfs := NAN }

/-- Iterated sampling: fold `readSensors` over a list of per-tick
hardware reports.  The flags stay fixed because nothing after
`setupSensors` writes them. -/
def runTicks (sqrtFn : ℝ → ℝ) (flags : SensorFlags) (envs : List SensorEnv)
    (p : CortexPacket) : CortexPacket :=
  envs.foldl (fun q e => readSensors sqrtFn flags e q) p

/-- Translation of `updateAndNotify`: stamps `t_ms` with `millis()`, increments the
`uint16_t` sequence counter, and writes the resulting packet to the
characteristic.  The returned packet is both the new global state and
the record handed to the transport. -/
def updateAndNotify (now : Nat) (p : CortexPacket) : CortexPacket :=
  { p with
    t_ms := now % UINT32_MOD
    seq := (p.seq + 1) % UINT16_MOD }

/-- Packet state after N consecutive `updateAndNotify` calls (one per
transmission while connected) starting from the packet `setup` built;
`times` lists the `millis()` values of the calls. -/
def packetAfterTransmissions (times : List Nat) : CortexPacket :=
  times.foldl (fun p t => updateAndNotify t p) setupPacket

/-- Sampling period `sampleInterval`: 100 ms, 10 Hz. -/
def sampleInterval : Nat := 100

/-- Notification period `notifyInterval`: 200 ms, 5 Hz. -/
def notifyInterval : Nat := 200

/-- The mutable state read and written by one `loop` iteration: the
global packet, the two timer variables, the availability flags, and
the `BLE.connected()` view of the link. -/
structure NodeState where
  packet : CortexPacket
  lastSampleTime : Nat
  lastNotifyTime : Nat
  flags : SensorFlags
  connected : Bool

/-- One iteration of `loop`, after `BLE.poll()` has run: sample at
10 Hz, then — on a notify tick — transmit only if `BLE.connected()`.
Returns the new state and the record handed to the transport, if any.
Both timer comparisons use unsigned 32-bit subtraction as in the
source. -/
def loopStep (sqrtFn : ℝ → ℝ) (now : Nat) (env : SensorEnv) (s : NodeState) :
    NodeState × Option CortexPacket :=
  let currentTime := now % UINT32_MOD
  let s1 :=
    if sampleInterval ≤ usub32 currentTime s.lastSampleTime then
      { s with
        lastSampleTime := currentTime
        packet := readSensors sqrtFn s.flags env s.packet }
    else s
  if notifyInterval ≤ usub32 currentTime s1.lastNotifyTime then
    if s1.connected then
      let p2 := updateAndNotify now s1.packet
      ({ s1 with lastNotifyTime := currentTime, packet := p2 }, some p2)
    else
      ({ s1 with lastNotifyTime := currentTime }, none)
  else (s1, none)

/-- The inputs one `loop` iteration consumes: the `millis()` reading,
the sensor hardware report, and the connection status after
`BLE.poll()` dispatched any pending link events. -/
structure LoopInput where
  now : Nat
  env : SensorEnv
  connected : Bool

/-- A run of the polling loop: fold `loopStep` over a list of loop
inputs, collecting every record handed to the transport, in order. -/
def loopRun (sqrtFn : ℝ → ℝ) (s : NodeState) :
    List LoopInput → NodeState × List CortexPacket
  | [] => (s, [])
  | i :: rest =>
    let step := loopStep sqrtFn i.now i.env { s with connected := i.connected }
    let tail := loopRun sqrtFn step.1 rest
    (tail.1, step.2.toList ++ tail.2)

/-- The node state when `loop` first runs: the packet `setup` built,
both timers at 0, flags as `setupSensors` recorded them, and no
central attached yet. -/
def initialState (flags : SensorFlags) : NodeState :=
  { packet := setupPacket
    lastSampleTime := 0
    lastNotifyTime := 0
    flags := flags
    connected := false }

/-- The lifecycle states named by the spec. -/
inductive ConnState where
  | Idle
  | Advertising
  | Connected
deriving DecidableEq

/-- The slice of ArduinoBLE stack state the sketch observes: whether a
central is attached, whether advertising is active, plus the built-in
LED the sketch drives as an indicator. -/
structure BLEStack where
  connected : Bool
  advertising : Bool
  ledOn : Bool

/-- The `onBLEDisconnected` handler body: turn the advertising LED back
on and call `BLE.advertise()`, unconditionally. -/
def onBLEDisconnected (s : BLEStack) : BLEStack :=
  { s with ledOn := true, advertising := true }

/-- Delivery of a disconnection event by `BLE.poll()`: the stack drops
the link (so `BLE.connected()` is false) and then runs the registered
`onBLEDisconnected` handler to completion. -/
def dispatchDisconnectEvent (s : BLEStack) : BLEStack :=
  onBLEDisconnected { s with connected := false }

/-- The spec lifecycle state determined by the stack flags: `Connected`
with a central attached, else `Advertising` while discoverable, else
`Idle`. -/
def connStateOf (s : BLEStack) : ConnState :=
  if s.connected then ConnState.Connected
  else if s.advertising then ConnState.Advertising
  else ConnState.Idle

/-- The header-field invariant every record should carry: magic "CTX1",
the build-time node id, reserved zero. -/
def headerOK (p : CortexPacket) : Prop :=
  p.magic = magicCTX1 ∧ p.node_id = NODE_ID ∧ p.reserved = 0

/-- The six sensor fields of a packet, bundled for statements about
what sampling writes. -/
def sensorFields (p : CortexPacket) :
    FloatVal × FloatVal × FloatVal × FloatVal × FloatVal × FloatVal :=
  (p.temp_c, p.rh_pct, p.pressure_hpa, p.lux, p.accel_g, p.sound_dbfs)

/-- All four sensor subsystems failed to start. -/
def flagsAllFalse : SensorFlags :=
  { hts_ok := false, baro_ok := false, apds_ok := false, lsm_ok := false }

/-- All four sensor subsystems started. -/
def flagsAllTrue : SensorFlags :=
  { hts_ok := true, baro_ok := true, apds_ok := true, lsm_ok := true }

/-- A concrete hardware report: fresh samples ready, device at rest
with gravity on the z axis. -/
def envRest : SensorEnv :=
  { htsTemperature := 0, htsHumidity := 0, baroPressure := 0,
    colorAvailable := true, colorAmbient := 0,
    accelerationAvailable := true, ax := 0, ay := 0, az := 1 }

/-- A concrete hardware report with acceleration components (3, 4, 0). -/
def envThreeFour : SensorEnv :=
  { htsTemperature := 0, htsHumidity := 0, baroPressure := 0,
    colorAvailable := true, colorAmbient := 0,
    accelerationAvailable := true, ax := 3, ay := 4, az := 0 }

/-- A concrete hardware report on which neither the color sensor nor
the accelerometer has a fresh sample ready. -/
def envNotReady : SensorEnv :=
  { htsTemperature := 0, htsHumidity := 0, baroPressure := 0,
    colorAvailable := false, colorAmbient := 0,
    accelerationAvailable := false, ax := 0, ay := 0, az := 0 }

/-- The packet with the sequence counter at its maximum value, for
exercising the 65535 → 0 wraparound. -/
def packet65535 : CortexPacket := { setupPacket with seq := 65535 }

/-- C1: the packed struct the firmware hands to the transport is 36
bytes — the sum of its declared field widths — while the spec table
(whose row sizes sum to 44 via the 8-byte padding row at offset 36)
and the in-code comment demand 44 bytes.  The struct declares no
padding field at all, so no write ever zero-fills bytes 36..43. -/
theorem C1_sizeof_packet_is_36_not_44 :
    sizeofCortexPacket = 36 ∧
    (specWireRecordRows.map Prod.snd).sum = specWireRecordSize ∧
    specWireRecordSize = 44 ∧
    sizeofCortexPacket ≠ specWireRecordSize := by
  refine ⟨rfl, rfl, rfl, ?_⟩
  decide

theorem seq_foldl_updateAndNotify (times : List Nat) (p : CortexPacket)
    (h : p.seq < UINT16_MOD) :
    (times.foldl (fun q t => updateAndNotify t q) p).seq =
      (p.seq + times.length) % UINT16_MOD := by
  induction times generalizing p with
  | nil => simp [Nat.mod_eq_of_lt h]
  | cons t rest ih =>
    have hlt : (updateAndNotify t p).seq < UINT16_MOD := by
      show (p.seq + 1) % UINT16_MOD < UINT16_MOD
      exact Nat.mod_lt _ (by decide)
    rw [List.foldl_cons, ih (updateAndNotify t p) hlt]
    show ((p.seq + 1) % UINT16_MOD + rest.length) % UINT16_MOD = _
    rw [Nat.mod_add_mod, List.length_cons]
    congr 1
    omega

/-- C2 counterexample: the very first record transmitted after boot
carries seq = 1, not (1 - 1) mod 65536 = 0, because `updateAndNotify`
increments `packet.seq` before writing the characteristic. -/
theorem C2_cex_first_record_seq_is_one :
    (packetAfterTransmissions [200]).seq = 1 ∧
    (packetAfterTransmissions [200]).seq ≠ (1 - 1) % UINT16_MOD := by
  refine ⟨rfl, ?_⟩
  decide

/-- C2 (amended): each `updateAndNotify` invocation increments the
sequence counter (wrapping at 2^16) and only then copies it into the
transmitted record, so after N consecutive transmissions while
connected starting from boot (counter initialized to 0), the N-th
transmitted record carries seq = N mod 65536. -/
theorem C2_nth_record_seq_eq_n_mod_65536 (times : List Nat) :
    (packetAfterTransmissions times).seq = times.length % UINT16_MOD := by
  have h0 : setupPacket.seq = 0 := rfl
  have := seq_foldl_updateAndNotify times setupPacket (by rw [h0]; decide)
  rw [packetAfterTransmissions, this, h0, Nat.zero_add]

/-- C3 counterexample: at boot, before the first sampling tick, the six
sensor fields of the packet are not all NaN — `setup` only fills the
header, so each float field keeps its C++ zero-initialized value 0.0. -/
theorem C3_cex_boot_fields_not_all_nan :
    ¬ (setupPacket.temp_c = NAN ∧ setupPacket.rh_pct = NAN ∧
       setupPacket.pressure_hpa = NAN ∧ setupPacket.lux = NAN ∧
       setupPacket.accel_g = NAN ∧ setupPacket.sound_dbfs = NAN) := by
  simp [setupPacket, zeroPacket, NAN]

/-- C3 (amended): at boot, before the first sampling tick, every one of
the six sensor fields holds the finite value 0.0 — the zero
initialization of the global struct — rather than the NaN sentinel;
NaN can first appear only when `readSensors` runs. -/
theorem C3_boot_fields_are_zero :
    sensorFields setupPacket = (some 0, some 0, some 0, some 0, some 0, some 0) := rfl

/-- C4: a subsystem whose availability flag was recorded false at
initialization yields NaN in every frame field it feeds, after every
sampling tick (any tick `e`, preceded by any earlier ticks `envs`,
from any starting packet), regardless of what the hardware reports. -/
theorem C4_failed_subsystem_fields_always_nan (sqrtFn : ℝ → ℝ) (flags : SensorFlags)
    (envs : List SensorEnv) (e : SensorEnv) (p : CortexPacket) :
    (flags.hts_ok = false →
      (runTicks sqrtFn flags (envs ++ [e]) p).temp_c = NAN ∧
      (runTicks sqrtFn flags (envs ++ [e]) p).rh_pct = NAN) ∧
    (flags.baro_ok = false →
      (runTicks sqrtFn flags (envs ++ [e]) p).pressure_hpa = NAN) ∧
    (flags.apds_ok = false →
      (runTicks sqrtFn flags (envs ++ [e]) p).lux = NAN) ∧
    (flags.lsm_ok = false →
      (runTicks sqrtFn flags (envs ++ [e]) p).accel_g = NAN) := by
  have hsplit : runTicks sqrtFn flags (envs ++ [e]) p =
      readSensors sqrtFn flags e (runTicks sqrtFn flags envs p) := by
    simp [runTicks, List.foldl_append]
  rw [hsplit]
  refine ⟨fun h => ⟨?_, ?_⟩, fun h => ?_, fun h => ?_, fun h => ?_⟩ <;>
    simp [readSensors, h]

/-- C4 witness: with every flag false, after one concrete tick all four
subsystem fields are NaN even though the hardware had samples ready. -/
theorem C4_failed_subsystem_fields_always_nan_witness :
    flagsAllFalse.hts_ok = false ∧
    (runTicks (fun x => x) flagsAllFalse ([] ++ [envRest]) setupPacket).temp_c = NAN ∧
    (runTicks (fun x => x) flagsAllFalse ([] ++ [envRest]) setupPacket).rh_pct = NAN ∧
    (runTicks (fun x => x) flagsAllFalse ([] ++ [envRest]) setupPacket).pressure_hpa = NAN ∧
    (runTicks (fun x => x) flagsAllFalse ([] ++ [envRest]) setupPacket).lux = NAN ∧
    (runTicks (fun x => x) flagsAllFalse ([] ++ [envRest]) setupPacket).accel_g = NAN := by
  obtain ⟨h1, h2, h3, h4⟩ :=
    C4_failed_subsystem_fields_always_nan (fun x => x) flagsAllFalse [] envRest setupPacket
  exact ⟨rfl, (h1 rfl).1, (h1 rfl).2, h2 rfl, h3 rfl, h4 rfl⟩

/-- C5: on every sampling tick, `sound_dbfs` is set to NaN
unconditionally; `accel_g` is the euclidean magnitude
sqrt(ax² + ay² + az²) exactly when the motion subsystem is available
and a fresh sample is ready, and NaN otherwise; at rest with gravity
on one axis the magnitude is 1.0, and components (3, 4, 0) give 5.0. -/
theorem C5_accel_magnitude_and_sound_placeholder (flags : SensorFlags)
    (env : SensorEnv) (p : CortexPacket) :
    (readSensors Real.sqrt flags env p).sound_dbfs = NAN ∧
    (flags.lsm_ok = true → env.accelerationAvailable = true →
      (readSensors Real.sqrt flags env p).accel_g =
        some (Real.sqrt (env.ax ^ 2 + env.ay ^ 2 + env.az ^ 2))) ∧
    (flags.lsm_ok = false ∨ env.accelerationAvailable = false →
      (readSensors Real.sqrt flags env p).accel_g = NAN) ∧
    (flags.lsm_ok = true → env.accelerationAvailable = true →
      env.ax = 0 → env.ay = 0 → env.az = 1 →
      (readSensors Real.sqrt flags env p).accel_g = some 1) ∧
    (flags.lsm_ok = true → env.accelerationAvailable = true →
      env.ax = 3 → env.ay = 4 → env.az = 0 →
      (readSensors Real.sqrt flags env p).accel_g = some 5) := by
  refine ⟨rfl, ?_, ?_, ?_, ?_⟩
  · intro h1 h2
    simp only [readSensors, h1, h2, Bool.and_self]
    simp only [if_true]
    congr 1
    ring_nf
  · rintro (h | h) <;> simp [readSensors, h]
  · intro h1 h2 hx hy hz
    simp only [readSensors, h1, h2, Bool.and_self]
    simp only [if_true]
    rw [hx, hy, hz]
    norm_num
  · intro h1 h2 hx hy hz
    simp only [readSensors, h1, h2, Bool.and_self]
    simp only [if_true]
    rw [hx, hy, hz]
    rw [show (3 : ℝ) * 3 + 4 * 4 + 0 * 0 = 5 ^ 2 by norm_num]
    rw [Real.sqrt_sq (by norm_num : (0 : ℝ) ≤ 5)]

/-- C5 witness: with the motion subsystem up and fresh samples ready,
the concrete reports (0, 0, 1) and (3, 4, 0) produce accel_g = 1.0 and
5.0, and sound_dbfs is NaN. -/
theorem C5_accel_magnitude_and_sound_placeholder_witness :
    flagsAllTrue.lsm_ok = true ∧ envRest.accelerationAvailable = true ∧
    (readSensors Real.sqrt flagsAllTrue envRest setupPacket).accel_g = some 1 ∧
    (readSensors Real.sqrt flagsAllTrue envThreeFour setupPacket).accel_g = some 5 ∧
    (readSensors Real.sqrt flagsAllTrue envRest setupPacket).sound_dbfs = NAN := by
  refine ⟨rfl, rfl, ?_, ?_, ?_⟩
  · exact (C5_accel_magnitude_and_sound_placeholder flagsAllTrue envRest
      setupPacket).2.2.2.1 rfl rfl rfl rfl rfl
  · exact (C5_accel_magnitude_and_sound_placeholder flagsAllTrue envThreeFour
      setupPacket).2.2.2.2 rfl rfl rfl rfl rfl
  · exact (C5_accel_magnitude_and_sound_placeholder flagsAllTrue envRest
      setupPacket).1

/-- C10: when the light (respectively motion) subsystem is available
but reports no fresh sample, `readSensors` overwrites `lux`
(respectively `accel_g`) with NaN even when the packet held a finite
reading, so a frame field can revert from a value to NaN between
consecutive ticks while the sensor stays available. -/
theorem C10_no_fresh_sample_discards_held_value (sqrtFn : ℝ → ℝ) (flags : SensorFlags)
    (env : SensorEnv) (p : CortexPacket) (v w : ℝ) :
    (flags.apds_ok = true → env.colorAvailable = false → p.lux = some v →
      (readSensors sqrtFn flags env p).lux = NAN) ∧
    (flags.lsm_ok = true → env.accelerationAvailable = false → p.accel_g = some w →
      (readSensors sqrtFn flags env p).accel_g = NAN) := by
  constructor <;> intro h1 h2 _ <;> simp [readSensors, h1, h2]

/-- C10 witness: from the packet holding finite 0.0 readings, a tick on
which neither sampler has fresh data reverts both fields to NaN even
with every subsystem available. -/
theorem C10_no_fresh_sample_discards_held_value_witness :
    flagsAllTrue.apds_ok = true ∧ envNotReady.colorAvailable = false ∧
    setupPacket.lux = some 0 ∧
    (readSensors (fun x => x) flagsAllTrue envNotReady setupPacket).lux = NAN ∧
    (readSensors (fun x => x) flagsAllTrue envNotReady setupPacket).accel_g = NAN := by
  obtain ⟨h1, h2⟩ := C10_no_fresh_sample_discards_held_value (fun x => x)
    flagsAllTrue envNotReady setupPacket 0 0
  exact ⟨rfl, rfl, rfl, h1 rfl rfl rfl, h2 rfl rfl rfl⟩

/-- C6: on every loop iteration, no record is handed to the transport
while `BLE.connected()` is false — the notify tick is skipped silently,
with no error value in the model — and whenever the sample timer has
elapsed the six sensor fields are updated by `readSensors` regardless
of connection state. -/
theorem C6_skip_transmission_when_not_connected (sqrtFn : ℝ → ℝ) (now : Nat)
    (env : SensorEnv) (s : NodeState) :
    (s.connected = false → (loopStep sqrtFn now env s).2 = none) ∧
    (sampleInterval ≤ usub32 (now % UINT32_MOD) s.lastSampleTime →
      sensorFields (loopStep sqrtFn now env s).1.packet =
        sensorFields (readSensors sqrtFn s.flags env s.packet)) := by
  constructor
  · intro h
    simp only [loopStep]
    split_ifs <;> simp_all
  · intro h
    simp only [loopStep]
    split_ifs <;> simp_all [sensorFields, updateAndNotify, readSensors]

/-- C6 witness: with no central attached, a tick on which both timers
have elapsed samples the sensors but transmits nothing. -/
theorem C6_skip_transmission_when_not_connected_witness :
    (initialState flagsAllTrue).connected = false ∧
    (loopStep (fun x => x) 200 envRest (initialState flagsAllTrue)).2 = none ∧
    sampleInterval ≤ usub32 (200 % UINT32_MOD) (initialState flagsAllTrue).lastSampleTime ∧
    sensorFields (loopStep (fun x => x) 200 envRest (initialState flagsAllTrue)).1.packet =
      sensorFields (readSensors (fun x => x) (initialState flagsAllTrue).flags envRest
        (initialState flagsAllTrue).packet) := by
  refine ⟨rfl, ?_, by decide, ?_⟩
  · exact (C6_skip_transmission_when_not_connected (fun x => x) 200 envRest
      (initialState flagsAllTrue)).1 rfl
  · exact (C6_skip_transmission_when_not_connected (fun x => x) 200 envRest
      (initialState flagsAllTrue)).2 (by decide)

/-- C7: delivering a disconnection event leaves the stack in the
`Advertising` lifecycle state with advertising re-armed, the link down
and the indicator LED on — unconditionally, for every prior stack
state, with no restart involved. -/
theorem C7_disconnect_rearms_advertising (s : BLEStack) :
    connStateOf (dispatchDisconnectEvent s) = ConnState.Advertising ∧
    (dispatchDisconnectEvent s).advertising = true ∧
    (dispatchDisconnectEvent s).connected = false ∧
    (dispatchDisconnectEvent s).ledOn = true :=
  ⟨rfl, rfl, rfl, rfl⟩

/-- C8: the sequence counter is 0 in the packet `setup` builds, every
`updateAndNotify` advances it by exactly 1 modulo 65536 (65535 wraps to
0), and a loop iteration either leaves it unchanged (no transmission)
or advances it by exactly 1 modulo 65536 — it is never decremented or
reset; the record transmitted by an iteration always carries the
incremented value. -/
theorem C8_seq_increment_mod_65536 (sqrtFn : ℝ → ℝ) (now : Nat)
    (env : SensorEnv) (s : NodeState) (p r : CortexPacket) :
    setupPacket.seq = 0 ∧
    (updateAndNotify now p).seq = (p.seq + 1) % UINT16_MOD ∧
    (p.seq = 65535 → (updateAndNotify now p).seq = 0) ∧
    ((loopStep sqrtFn now env s).1.packet.seq = s.packet.seq ∨
      (loopStep sqrtFn now env s).1.packet.seq = (s.packet.seq + 1) % UINT16_MOD) ∧
    ((loopStep sqrtFn now env s).2 = some r →
      r.seq = (s.packet.seq + 1) % UINT16_MOD) := by
  refine ⟨rfl, rfl, ?_, ?_, ?_⟩
  · intro h
    show (p.seq + 1) % UINT16_MOD = 0
    rw [h]
    decide
  · simp only [loopStep]
    split_ifs <;> simp_all [updateAndNotify, readSensors]
  · intro h
    simp only [loopStep] at h
    split_ifs at h <;> simp_all [updateAndNotify, readSensors] <;> rw [← h]

/-- C8 witness: from boot state a connected tick transmits seq = 1, and
incrementing from 65535 yields 0. -/
theorem C8_seq_increment_mod_65536_witness :
    setupPacket.seq = 0 ∧
    packet65535.seq = 65535 ∧
    (updateAndNotify 0 packet65535).seq = 0 ∧
    (loopStep (fun x => x) 200 envRest { initialState flagsAllTrue with connected := true }).2 =
      some (updateAndNotify 200 (readSensors (fun x => x) flagsAllTrue envRest setupPacket)) ∧
    (updateAndNotify 200 (readSensors (fun x => x) flagsAllTrue envRest setupPacket)).seq = 1 := by
  refine ⟨rfl, rfl, ?_, rfl, ?_⟩
  · exact (C8_seq_increment_mod_65536 (fun x => x) 0 envRest (initialState flagsAllTrue)
      packet65535 packet65535).2.2.1 rfl
  · have := (C8_seq_increment_mod_65536 (fun x => x) 200 envRest
      { initialState flagsAllTrue with connected := true }
      setupPacket (updateAndNotify 200 (readSensors (fun x => x) flagsAllTrue envRest setupPacket))).2.2.2.2 rfl
    simpa using this

theorem headerOK_loopStep (sqrtFn : ℝ → ℝ) (now : Nat) (env : SensorEnv)
    (s : NodeState) (h : headerOK s.packet) :
    headerOK (loopStep sqrtFn now env s).1.packet ∧
      ∀ r, (loopStep sqrtFn now env s).2 = some r → headerOK r := by
  obtain ⟨h1, h2, h3⟩ := h
  constructor
  · simp only [loopStep]
    split_ifs <;> exact ⟨h1, h2, h3⟩
  · intro r hr
    simp only [loopStep] at hr
    split_ifs at hr <;> simp_all [headerOK, updateAndNotify, readSensors] <;>
      (rw [← hr]; exact ⟨rfl, rfl, rfl⟩)

theorem headerOK_loopRun (sqrtFn : ℝ → ℝ) (inputs : List LoopInput)
    (s : NodeState) (h : headerOK s.packet) :
    ∀ r ∈ (loopRun sqrtFn s inputs).2, headerOK r := by
  induction inputs generalizing s with
  | nil => simp [loopRun]
  | cons i rest ih =>
    intro r hr
    simp only [loopRun] at hr
    have hstep := headerOK_loopStep sqrtFn i.now i.env { s with connected := i.connected } h
    rcases List.mem_append.mp hr with hmem | hmem
    · cases hopt : (loopStep sqrtFn i.now i.env { s with connected := i.connected }).2 with
      | none => rw [hopt] at hmem; simp at hmem
      | some q =>
        rw [hopt] at hmem
        simp at hmem
        rw [hmem]
        exact hstep.2 q hopt
    · exact ih _ hstep.1 r hmem

/-- C9: the packet `setup` builds carries magic "CTX1", the build-time
node id (which is at most 254) and reserved = 0; these header fields
are untouched by `readSensors` and `updateAndNotify`, and every record
a loop run starting from the post-`setup` state hands to the transport
carries them. -/
theorem C9_header_constant_for_lifetime (sqrtFn : ℝ → ℝ) (flags : SensorFlags)
    (env : SensorEnv) (p : CortexPacket) (now : Nat)
    (inputs : List LoopInput) (r : CortexPacket) :
    headerOK setupPacket ∧
    setupPacket.magic = magicCTX1 ∧ setupPacket.node_id = NODE_ID ∧
    NODE_ID ≤ 254 ∧ setupPacket.reserved = 0 ∧
    (headerOK p → headerOK (readSensors sqrtFn flags env p)) ∧
    (headerOK p → headerOK (updateAndNotify now p)) ∧
    (r ∈ (loopRun sqrtFn (initialState flags) inputs).2 → headerOK r) := by
  refine ⟨⟨rfl, rfl, rfl⟩, rfl, rfl, by decide, rfl, fun h => h, fun h => h, fun hmem => ?_⟩
  exact headerOK_loopRun sqrtFn inputs (initialState flags) ⟨rfl, rfl, rfl⟩ r hmem

/-- C9 witness: the record transmitted on a concrete connected tick
carries magic "CTX1", node id 1 and reserved 0. -/
theorem C9_header_constant_for_lifetime_witness :
    headerOK setupPacket ∧
    updateAndNotify 200 (readSensors (fun x => x) flagsAllTrue envRest setupPacket) ∈
      (loopRun (fun x => x) (initialState flagsAllTrue)
        [{ now := 200, env := envRest, connected := true }]).2 ∧
    headerOK (updateAndNotify 200 (readSensors (fun x => x) flagsAllTrue envRest setupPacket)) := by
  have hmem : updateAndNotify 200 (readSensors (fun x => x) flagsAllTrue envRest setupPacket) ∈
      (loopRun (fun x => x) (initialState flagsAllTrue)
        [{ now := 200, env := envRest, connected := true }]).2 := by
    show _ ∈ (loopStep (fun x => x) 200 envRest
      { initialState flagsAllTrue with connected := true }).2.toList ++ []
    rw [show (loopStep (fun x => x) 200 envRest
      { initialState flagsAllTrue with connected := true }).2 =
        some (updateAndNotify 200 (readSensors (fun x => x) flagsAllTrue envRest setupPacket))
      from rfl]
    simp
  refine ⟨⟨rfl, rfl, rfl⟩, hmem, ?_⟩
  exact (C9_header_constant_for_lifetime (fun x => x) flagsAllTrue envRest setupPacket 200
    [{ now := 200, env := envRest, connected := true }]
    (updateAndNotify 200 (readSensors (fun x => x) flagsAllTrue envRest setupPacket))).2.2.2.2.2.2.2 hmem

end Cortex
